import Mathlib

set_option maxHeartbeats 1000000

deriving instance DecidableEq for Except

namespace AbsenceBot

/-- Panic-aware result of running a piece of the Rust code: either a normal
value or a panic carrying the panic message. -/
inductive Outcome (α : Type) where
  | ok : α → Outcome α
  | panic : List Char → Outcome α
deriving DecidableEq

/-- The command token the bot recognises at the start of a message, the
constant COMMAND_PREFIX in the source (the literal "!abs "). -/
def COMMAND_PFX : List Char := "!abs ".toList

/-- Rust str::strip_prefix as used in Handler::parse_set_channel: when p is
an initial segment of s, the remainder of s after p, otherwise none. -/
def dropPfx? (p s : List Char) : Option (List Char) :=
  if s.take p.length = p then some (s.drop p.length) else none

/-- Body of Rust u64 parsing once an optional sign is removed: one or more
ascii digits whose value fits in 64 unsigned bits. -/
def parseU64core (t : List Char) : Option Nat :=
  if t ≠ [] ∧ t.all Char.isDigit then
    let n := t.foldl (fun a c => a * 10 + (c.toNat - '0'.toNat)) 0
    if n < 2 ^ 64 then some n else none
  else none

/-- Rust str::parse for u64: an optional leading plus sign, then one or more
ascii digits, with the value required to fit in 64 unsigned bits. -/
def parseU64 (s : List Char) : Option Nat :=
  parseU64core (if s.head? = some '+' then s.tail else s)

/-- Decimal rendering of an unsigned integer, the model of the source's
format calls on GuildId.get and ChannelId.get; Nat.toDigits 10 is Lean's own
decimal digit list. -/
def natToDec (n : Nat) : List Char := Nat.toDigits 10 n

/-- Reference decimal digit list, most significant digit first, used to
reason about Nat.toDigitsCore by well-founded recursion on the value. -/
def decDigits (n : Nat) : List Char :=
  if h : n < 10 then [Nat.digitChar n]
  else decDigits (n / 10) ++ [Nat.digitChar (n % 10)]
termination_by n
decreasing_by
  exact Nat.div_lt_self (by omega) (by decide)

/-- The sqlite table notify_channel: rows of (guild_id, channel_id), both
TEXT values as bound by the source's format calls. -/
structure Db where
  rows : List (List Char × List Char)
deriving DecidableEq

/-- The query SELECT channel_id FROM notify_channel WHERE guild_id equals the
key, with fetch_one: the first row whose guild_id column equals the key. -/
def dbSelectOne (db : Db) (g : List Char) : Option (List Char) :=
  (db.rows.find? (fun r => r.1 == g)).map (fun r => r.2)

/-- The statement DELETE FROM notify_channel WHERE guild_id equals the key. -/
def dbDelete (db : Db) (g : List Char) : Db :=
  ⟨db.rows.filter (fun r => !(r.1 == g))⟩

/-- The statement INSERT INTO notify_channel (guild_id, channel_id). -/
def dbInsert (db : Db) (g c : List Char) : Db :=
  ⟨db.rows ++ [(g, c)]⟩

/-- serenity's ChannelId::new, which asserts the id is non-zero and panics
when given 0. -/
def channelIdNew (n : Nat) : Outcome Nat :=
  if n = 0 then
    Outcome.panic ("Attempted to call ChannelId::new with invalid (0) value".toList)
  else Outcome.ok n

/-- Handler::get_notify_channel: look the guild up in the notify_channel
table; a failed or empty query becomes a wrapped error, a stored value that
does not parse as u64 panics via expect, and a stored 0 panics inside
ChannelId::new. The reachable flag says whether the backing store answers
queries at all. -/
def get_notify_channel (db : Db) (reachable : Bool) (g : Nat) :
    Outcome (Except (List Char) Nat) :=
  if reachable then
    match dbSelectOne db (natToDec g) with
    | none => Outcome.ok (Except.error ("failed to get notify channel from db".toList))
    | some s =>
      match parseU64 s with
      | none => Outcome.panic ("malformed channel id integer returned from database".toList)
      | some n =>
        match channelIdNew n with
        | Outcome.ok c => Outcome.ok (Except.ok c)
        | Outcome.panic m => Outcome.panic m
  else Outcome.ok (Except.error ("failed to get notify channel from db".toList))

/-- Handler::set_notify_channel: DELETE then INSERT with no transaction (the
source carries a TODO about exactly this). deleteOk and insertOk say whether
each statement reaches the store; a statement that fails leaves the rows as
they stood at that point and its error is wrapped and returned. -/
def set_notify_channel (db : Db) (deleteOk insertOk : Bool) (g c : Nat) :
    Except (List Char) Unit × Db :=
  if deleteOk then
    let db1 := dbDelete db (natToDec g)
    if insertOk then
      (Except.ok (), dbInsert db1 (natToDec g) (natToDec c))
    else (Except.error ("failed to insert notify channel".toList), db1)
  else (Except.error ("failed to clear old notify channel".toList), db)

/-- Handler::parse_set_channel: strip the command token (a non-command is
silently ignored), then the notifchan keyword, reject the literal argument
"0", parse the argument as u64 (any parse failure is the channel-id-invalid
error), and build the ChannelId, which panics on a zero value reached
through an argument such as "00". -/
def parse_set_channel (content : List Char) :
    Outcome (Except (List Char) (Option Nat)) :=
  match dropPfx? COMMAND_PFX content with
  | none => Outcome.ok (Except.ok none)
  | some rest =>
    match dropPfx? ("notifchan ".toList) rest with
    | none =>
      Outcome.ok (Except.error ("bad command format, use: `!abs  notifchan <channelid>`".toList))
    | some cid_lit =>
      if cid_lit = "0".toList then
        Outcome.ok (Except.error ("channel id invalid".toList))
      else
        match parseU64 cid_lit with
        | none => Outcome.ok (Except.error ("channel id invalid".toList))
        | some n =>
          match channelIdNew n with
          | Outcome.ok c => Outcome.ok (Except.ok (some c))
          | Outcome.panic m => Outcome.panic m

/-- Externally observable platform calls made by a handler. send is a message
successfully delivered into a channel, reply is a reply_mention attempt on
the originating message, and log is an error-level log line. -/
inductive Action where
  | send : Nat → List Char → Action
  | reply : List Char → Action
  | log : List Char → Action
deriving DecidableEq

/-- Environment of one guild_member_removal event: whether the backing store
answers, the result of the guild_id.channels call (the guild's current
channel ids), and whether the final say call succeeds. -/
structure RemovalEnv where
  reachable : Bool
  channels : Except (List Char) (List Nat)
  sayOk : Bool

/-- Result of one guild_member_removal event: the handler's outcome (normal
return or escaped panic) and the platform calls it made. The registry is
never written on this path. -/
structure RemovalOut where
  outcome : Outcome Unit
  actions : List Action
deriving DecidableEq

/-- EventHandler::guild_member_removal: read the bound channel (log and drop
the event on a query error), list the guild's channels (log and drop on
failure), then unwrap the stale-channel lookup (a binding to a channel the
guild no longer has panics through the unwrap call on line 118), and finally
announce the departure, logging a failed send. -/
def guild_member_removal (db : Db) (env : RemovalEnv) (guild_id : Nat)
    (userName : List Char) (userId : Nat) : RemovalOut :=
  match get_notify_channel db env.reachable guild_id with
  | Outcome.panic m => ⟨Outcome.panic m, []⟩
  | Outcome.ok (Except.error e) => ⟨Outcome.ok (), [Action.log e]⟩
  | Outcome.ok (Except.ok notify_cid) =>
    match env.channels with
    | Except.error e =>
      ⟨Outcome.ok (), [Action.log (("error getting channels: ".toList) ++ e)]⟩
    | Except.ok chans =>
      if notify_cid ∈ chans then
        let content := userName ++ (" (".toList) ++ natToDec userId ++
          (") has left the server".toList)
        if env.sayOk then ⟨Outcome.ok (), [Action.send notify_cid content]⟩
        else ⟨Outcome.ok (), [Action.log ("couldn't send message to channel".toList)]⟩
      else
        ⟨Outcome.panic (("guild ".toList) ++ natToDec guild_id ++
          (" doesn't have a channel ".toList) ++ natToDec notify_cid), []⟩

/-- Environment of one message event: whether the confirmation probe into the
target channel succeeds, whether a reply_mention to the author succeeds, and
whether each statement of the registry write reaches the store. -/
structure MsgEnv where
  sayOk : Bool
  replyOk : Bool
  deleteOk : Bool
  insertOk : Bool

/-- Result of one message event: the handler's outcome, the platform calls it
made, and the registry state it leaves behind. -/
structure MsgOut where
  outcome : Outcome Unit
  actions : List Action
  db : Db
deriving DecidableEq

/-- The fixed confirmation text the bot posts into a channel it is about to
bind. -/
def confirmText : List Char :=
  "This is now the channel that will be notified when someone leaves.".toList

/-- EventHandler::message: parse the content (silently returning on a
non-command, replying with the parse error otherwise), probe the target
channel with the confirmation text (on failure log it, reply that the
channel is inaccessible and return with the registry untouched), then read
the message's guild id — panicking via expect when the message has none, as
in a direct message — and commit the binding, logging a storage error. -/
def message (db : Db) (env : MsgEnv) (guild_id? : Option Nat)
    (content : List Char) : MsgOut :=
  match parse_set_channel content with
  | Outcome.panic m => ⟨Outcome.panic m, [], db⟩
  | Outcome.ok (Except.ok none) => ⟨Outcome.ok (), [], db⟩
  | Outcome.ok (Except.error e) =>
    if env.replyOk then ⟨Outcome.ok (), [Action.reply e], db⟩
    else ⟨Outcome.ok (), [Action.reply e, Action.log ("couldn't reply to message".toList)], db⟩
  | Outcome.ok (Except.ok (some cid)) =>
    if env.sayOk then
      match guild_id? with
      | none =>
        ⟨Outcome.panic ("no guild id attached to message".toList),
          [Action.send cid confirmText], db⟩
      | some gid =>
        match set_notify_channel db env.deleteOk env.insertOk gid cid with
        | (Except.ok _, db1) => ⟨Outcome.ok (), [Action.send cid confirmText], db1⟩
        | (Except.error e, db1) =>
          ⟨Outcome.ok (), [Action.send cid confirmText, Action.log e], db1⟩
    else
      let acts := [Action.log ("couldn't send message to channel".toList),
        Action.reply ("I can't find or don't have access to that channel".toList)]
      if env.replyOk then ⟨Outcome.ok (), acts, db⟩
      else ⟨Outcome.ok (), acts ++ [Action.log ("couldn't reply to message".toList)], db⟩

theorem decDigits_ne_nil (n : Nat) : decDigits n ≠ [] := by
  rw [decDigits]
  split
  · simp
  · simp

theorem digitChar_isDigit {m : Nat} (h : m < 10) : (Nat.digitChar m).isDigit = true := by
  interval_cases m <;> decide

theorem digitChar_val {m : Nat} (h : m < 10) : (Nat.digitChar m).toNat - '0'.toNat = m := by
  interval_cases m <;> decide

theorem decDigits_all_digit (n : Nat) : ∀ c ∈ decDigits n, c.isDigit = true := by
  induction n using Nat.strong_induction_on with
  | _ n ih =>
    rw [decDigits]
    split
    · next h =>
      intro c hc
      simp only [List.mem_singleton] at hc
      subst hc
      exact digitChar_isDigit h
    · next h =>
      intro c hc
      rcases List.mem_append.mp hc with h1 | h2
      · exact ih (n / 10) (Nat.div_lt_self (by omega) (by decide)) c h1
      · simp only [List.mem_singleton] at h2
        subst h2
        exact digitChar_isDigit (Nat.mod_lt n (by decide))

theorem foldl_decDigits (n : Nat) : ∀ a : Nat,
    (decDigits n).foldl (fun a c => a * 10 + (c.toNat - '0'.toNat)) a
      = a * 10 ^ (decDigits n).length + n := by
  induction n using Nat.strong_induction_on with
  | _ n ih =>
    intro a
    rw [decDigits]
    split
    · next h =>
      simp only [List.foldl_cons, List.foldl_nil, List.length_cons, List.length_nil,
        digitChar_val h, Nat.zero_add, pow_one]
    · next h =>
      have hlt : n / 10 < n := Nat.div_lt_self (by omega) (by decide)
      rw [List.foldl_append, ih (n / 10) hlt a, List.length_append]
      simp only [List.foldl_cons, List.foldl_nil, List.length_cons, List.length_nil]
      rw [digitChar_val (Nat.mod_lt n (by decide))]
      rw [pow_succ]
      generalize (10 : Nat) ^ (decDigits (n / 10)).length = k
      have expand : (a * k + n / 10) * 10 + n % 10 = a * (k * 10) + (10 * (n / 10) + n % 10) := by
        ring
      rw [expand, Nat.div_add_mod]

theorem toDigitsCore_eq (fuel : Nat) : ∀ n ds, n < fuel →
    Nat.toDigitsCore 10 fuel n ds = decDigits n ++ ds := by
  induction fuel with
  | zero =>
    intro n ds h
    omega
  | succ f ih =>
    intro n ds h
    simp only [Nat.toDigitsCore]
    by_cases hz : n / 10 = 0
    · have h10 : n < 10 := by omega
      rw [if_pos hz, decDigits, dif_pos h10, Nat.mod_eq_of_lt h10]
      simp
    · have h10 : ¬ n < 10 := by omega
      rw [if_neg hz]
      conv_rhs => rw [decDigits]
      rw [dif_neg h10, List.append_assoc]
      rw [ih (n / 10) (Nat.digitChar (n % 10) :: ds) (by omega)]
      simp

theorem natToDec_eq_decDigits (n : Nat) : natToDec n = decDigits n := by
  unfold natToDec Nat.toDigits
  rw [toDigitsCore_eq (n + 1) n [] (Nat.lt_succ_self n)]
  simp

/-- Decimal rendering round-trips through the Rust u64 parser for every value
that fits in 64 unsigned bits. -/
theorem parseU64_natToDec {n : Nat} (h : n < 2 ^ 64) : parseU64 (natToDec n) = some n := by
  rw [natToDec_eq_decDigits]
  obtain ⟨c, t, hct⟩ := List.exists_cons_of_ne_nil (decDigits_ne_nil n)
  have hcd : c.isDigit = true := by
    refine decDigits_all_digit n c ?_
    rw [hct]
    exact List.mem_cons_self c t
  have hplus : c ≠ '+' := by
    intro hc
    rw [hc] at hcd
    exact absurd hcd (by decide)
  unfold parseU64
  rw [hct]
  simp only [List.head?_cons]
  rw [if_neg (by simpa using hplus)]
  rw [← hct]
  unfold parseU64core
  rw [if_pos ⟨decDigits_ne_nil n, List.all_eq_true.mpr (decDigits_all_digit n)⟩]
  simp only [foldl_decDigits n 0, Nat.zero_mul, Nat.zero_add]
  rw [if_pos h]

theorem find?_filter_ne (l : List (List Char × List Char)) (k : List Char) :
    (l.filter (fun r => !(r.1 == k))).find? (fun r => r.1 == k) = none := by
  rw [List.find?_eq_none]
  intro x hx
  have hp := List.of_mem_filter hx
  simp only [Bool.not_eq_true'] at hp
  simp [hp]

theorem dbSelectOne_set (db : Db) (g c : Nat) :
    dbSelectOne (set_notify_channel db true true g c).2 (natToDec g) = some (natToDec c) := by
  simp [set_notify_channel, dbDelete, dbInsert, dbSelectOne, List.find?_append, find?_filter_ne]

theorem get_set_aux (db : Db) (g c : Nat) (h0 : c ≠ 0) (h64 : c < 2 ^ 64) :
    get_notify_channel (set_notify_channel db true true g c).2 true g
      = Outcome.ok (Except.ok c) := by
  simp [get_notify_channel, dbSelectOne_set db g c, parseU64_natToDec h64, channelIdNew, h0]

theorem filter_set_aux (db : Db) (g c : Nat) :
    ((set_notify_channel db true true g c).2.rows.filter (fun r => r.1 == natToDec g))
      = [(natToDec g, natToDec c)] := by
  simp [set_notify_channel, dbDelete, dbInsert, List.filter_append, List.filter_filter]

/-- C1: the claim states that set replaces a guild's binding atomically, with
the prior binding still present if the insert step errors after the delete
step. The code is the non-transactional delete-then-insert flagged by the
source's own TODO comment: starting from guild 1 bound to channel 5, a set of
channel 7 whose insert statement fails returns the insert error with the old
row already deleted, so the guild is left with no binding at all and a
subsequent get errors — the prior binding is lost, contradicting the claim. -/
theorem C1_set_partial_failure_loses_binding :
    (set_notify_channel ⟨[(natToDec 1, natToDec 5)]⟩ true false 1 7).1
        = Except.error ("failed to insert notify channel".toList) ∧
    (set_notify_channel ⟨[(natToDec 1, natToDec 5)]⟩ true false 1 7).2.rows = [] ∧
    get_notify_channel (set_notify_channel ⟨[(natToDec 1, natToDec 5)]⟩ true false 1 7).2 true 1
        = Outcome.ok (Except.error ("failed to get notify channel from db".toList)) := by
  decide

/-- C2: the claim states that a stale binding — the bound channel absent from
the guild's current channel set — is logged and the event dropped with no
panic. Instead the code unwraps the channel lookup: with guild 1 bound to
channel 5 while the guild's channels are just channel 6, the handler panics
with the stale-channel message and performs no platform call at all, so the
no-panic part of the claim fails (though indeed nothing is sent). -/
theorem C2_stale_binding_panics :
    guild_member_removal ⟨[(natToDec 1, natToDec 5)]⟩ ⟨true, Except.ok [6], true⟩ 1
        ("Alice".toList) 42
      = ⟨Outcome.panic (("guild ".toList) ++ natToDec 1 ++
          (" doesn't have a channel ".toList) ++ natToDec 5), []⟩ := by
  decide

/-- C3 counterexample: the claim states that a corrupt stored channel-id value
(non-numeric text in the channel_id column) is logged and the event dropped
without the handler crashing. With guild 1 bound to the corrupt text "abc",
the member-removal handler panics through the expect call in
get_notify_channel, so the claim as stated is false. -/
theorem C3_corrupt_value_panics :
    (guild_member_removal ⟨[(natToDec 1, "abc".toList)]⟩ ⟨true, Except.ok [5], true⟩ 1
        ("Bob".toList) 7).outcome
      = Outcome.panic ("malformed channel id integer returned from database".toList) := by
  decide

/-- C3 amended: a member-removal event that finds the backing store
unreachable has its error logged and is dropped, with no panic and no send;
but a corrupt stored channel-id value (text that does not parse as u64) makes
the handler panic via the expect in get_notify_channel rather than log and
drop. -/
theorem C3_storage_failure_handling (db : Db) (env : RemovalEnv) (g uid : Nat)
    (uname : List Char) :
    (env.reachable = false →
      guild_member_removal db env g uname uid
        = ⟨Outcome.ok (), [Action.log ("failed to get notify channel from db".toList)]⟩) ∧
    (∀ s, env.reachable = true → dbSelectOne db (natToDec g) = some s → parseU64 s = none →
      guild_member_removal db env g uname uid
        = ⟨Outcome.panic ("malformed channel id integer returned from database".toList), []⟩) := by
  constructor
  · intro hr
    simp [guild_member_removal, get_notify_channel, hr]
  · intro s hr hs hps
    simp [guild_member_removal, get_notify_channel, hr, hs, hps]

/-- C3 witness: both arms of the amended claim at concrete inputs — an
unreachable store for guild 1, and guild 1 bound to the corrupt text "zz". -/
theorem C3_storage_failure_handling_witness :
    guild_member_removal ⟨[]⟩ ⟨false, Except.ok [], true⟩ 1 ("A".toList) 2
        = ⟨Outcome.ok (), [Action.log ("failed to get notify channel from db".toList)]⟩ ∧
    guild_member_removal ⟨[(natToDec 1, "zz".toList)]⟩ ⟨true, Except.ok [], true⟩ 1
        ("A".toList) 2
        = ⟨Outcome.panic ("malformed channel id integer returned from database".toList), []⟩ :=
  ⟨(C3_storage_failure_handling ⟨[]⟩ ⟨false, Except.ok [], true⟩ 1 2 ("A".toList)).1 rfl,
   (C3_storage_failure_handling ⟨[(natToDec 1, "zz".toList)]⟩ ⟨true, Except.ok [], true⟩ 1 2
      ("A".toList)).2 ("zz".toList) rfl (by decide) (by decide)⟩

/-- C4: the claim states that every argument that does not denote a positive
non-zero integer — "0", "00", "abc" alike — draws the same channel-id-invalid
reply with no registry change and no send. The literal "0" and non-numeric
text do, but "00" parses to the integer 0 and reaches serenity's
ChannelId::new, which panics on a zero value: the command is not rejected
with the reply, the whole message handler panics (registry untouched, nothing
sent, but no reply either). -/
theorem C4_zero_like_argument_panics :
    parse_set_channel ("!abs notifchan 0".toList)
        = Outcome.ok (Except.error ("channel id invalid".toList)) ∧
    parse_set_channel ("!abs notifchan abc".toList)
        = Outcome.ok (Except.error ("channel id invalid".toList)) ∧
    parse_set_channel ("!abs notifchan 00".toList)
        = Outcome.panic ("Attempted to call ChannelId::new with invalid (0) value".toList) ∧
    message ⟨[(natToDec 1, natToDec 5)]⟩ ⟨true, true, true, true⟩ (some 1)
        ("!abs notifchan 00".toList)
      = ⟨Outcome.panic ("Attempted to call ChannelId::new with invalid (0) value".toList), [],
          ⟨[(natToDec 1, natToDec 5)]⟩⟩ := by
  decide

/-- C5: when the confirmation probe into the target channel fails, the
message handler logs the failure, replies that the channel is inaccessible,
and returns with the registry exactly as it was — set_notify_channel is never
reached on this branch. -/
theorem C5_probe_failure_frame (db : Db) (env : MsgEnv) (gid? : Option Nat)
    (content : List Char) (cid : Nat)
    (hp : parse_set_channel content = Outcome.ok (Except.ok (some cid)))
    (hs : env.sayOk = false) (hr : env.replyOk = true) :
    message db env gid? content
      = ⟨Outcome.ok (), [Action.log ("couldn't send message to channel".toList),
          Action.reply ("I can't find or don't have access to that channel".toList)], db⟩ := by
  simp [message, hp, hs, hr]

/-- C5 witness: a failed probe for the command text naming channel 123, with
guild 1 already bound to channel 5; the binding survives unchanged. -/
theorem C5_probe_failure_frame_witness :
    message ⟨[(natToDec 1, natToDec 5)]⟩ ⟨false, true, true, true⟩ (some 1)
        ("!abs notifchan 123".toList)
      = ⟨Outcome.ok (), [Action.log ("couldn't send message to channel".toList),
          Action.reply ("I can't find or don't have access to that channel".toList)],
          ⟨[(natToDec 1, natToDec 5)]⟩⟩ :=
  C5_probe_failure_frame ⟨[(natToDec 1, natToDec 5)]⟩ ⟨false, true, true, true⟩ (some 1)
    ("!abs notifchan 123".toList) 123 (by decide) rfl rfl

/-- C6: after two successful sequential sets for the same guild, both calls
report success, a subsequent get returns the second channel, and the table
holds exactly one row for that guild — the second binding replaced the first
rather than joining it. -/
theorem C6_last_set_wins (db : Db) (g c1 c2 : Nat) (h0 : c2 ≠ 0) (h64 : c2 < 2 ^ 64) :
    (set_notify_channel db true true g c1).1 = Except.ok () ∧
    (set_notify_channel (set_notify_channel db true true g c1).2 true true g c2).1
        = Except.ok () ∧
    get_notify_channel
        (set_notify_channel (set_notify_channel db true true g c1).2 true true g c2).2 true g
      = Outcome.ok (Except.ok c2) ∧
    ((set_notify_channel (set_notify_channel db true true g c1).2 true true g c2).2.rows.filter
        (fun r => r.1 == natToDec g))
      = [(natToDec g, natToDec c2)] := by
  refine ⟨by simp [set_notify_channel], by simp [set_notify_channel], ?_, ?_⟩
  · exact get_set_aux _ g c2 h0 h64
  · exact filter_set_aux _ g c2

/-- C6 witness: from an empty table, set guild 1 to channel 5 and then to
channel 9; the read returns 9. -/
theorem C6_last_set_wins_witness :
    get_notify_channel
        (set_notify_channel (set_notify_channel ⟨[]⟩ true true 1 5).2 true true 1 9).2 true 1
      = Outcome.ok (Except.ok 9) :=
  (C6_last_set_wins ⟨[]⟩ 1 5 9 (by decide) (by decide)).2.2.1

/-- C7: a successful set stores the channel id as decimal text and get parses
it back, so every non-zero id in the unsigned 64-bit range — in particular
values above 2 to the 63rd minus 1 — round-trips exactly, with no
sign-related truncation. -/
theorem C7_id_roundtrip (db : Db) (g c : Nat) (h0 : c ≠ 0) (h64 : c < 2 ^ 64) :
    (set_notify_channel db true true g c).1 = Except.ok () ∧
    get_notify_channel (set_notify_channel db true true g c).2 true g
      = Outcome.ok (Except.ok c) :=
  ⟨by simp [set_notify_channel], get_set_aux db g c h0 h64⟩

/-- C7 witness: the id 2 to the 63rd plus 42, which does not fit in a signed
64-bit integer, round-trips through set and get. -/
theorem C7_id_roundtrip_witness :
    get_notify_channel (set_notify_channel ⟨[]⟩ true true 7 (2 ^ 63 + 42)).2 true 7
      = Outcome.ok (Except.ok (2 ^ 63 + 42)) :=
  (C7_id_roundtrip ⟨[]⟩ 7 (2 ^ 63 + 42) (by decide) (by decide)).2

/-- C8: on a guild with no row in the table, get returns the wrapped
row-not-found error rather than any default channel id, and the
member-removal handler for that guild just logs it and returns normally,
sending nothing. -/
theorem C8_no_binding_no_send (db : Db) (env : RemovalEnv) (g uid : Nat)
    (uname : List Char)
    (hnb : dbSelectOne db (natToDec g) = none) (hr : env.reachable = true) :
    get_notify_channel db env.reachable g
        = Outcome.ok (Except.error ("failed to get notify channel from db".toList)) ∧
    guild_member_removal db env g uname uid
        = ⟨Outcome.ok (), [Action.log ("failed to get notify channel from db".toList)]⟩ := by
  constructor
  · simp [get_notify_channel, hr, hnb]
  · simp [guild_member_removal, get_notify_channel, hr, hnb]

/-- C8 witness: an empty table and a member-removal event for guild 1. -/
theorem C8_no_binding_no_send_witness :
    guild_member_removal ⟨[]⟩ ⟨true, Except.ok [3], true⟩ 1 ("A".toList) 2
      = ⟨Outcome.ok (), [Action.log ("failed to get notify channel from db".toList)]⟩ :=
  (C8_no_binding_no_send ⟨[]⟩ ⟨true, Except.ok [3], true⟩ 1 2 ("A".toList) (by decide) rfl).2

/-- C9: a message whose text does not start with the command token "!abs "
makes the message handler return silently: no reply, no send, no registry
change. -/
theorem C9_non_command_silent (db : Db) (env : MsgEnv) (gid? : Option Nat)
    (content : List Char) (h : content.take COMMAND_PFX.length ≠ COMMAND_PFX) :
    message db env gid? content = ⟨Outcome.ok (), [], db⟩ := by
  simp [message, parse_set_channel, dropPfx?, h]

/-- C9 witness: the message "hello" with guild 1 bound to channel 5. -/
theorem C9_non_command_silent_witness :
    message ⟨[(natToDec 1, natToDec 5)]⟩ ⟨true, true, true, true⟩ (some 1) ("hello".toList)
      = ⟨Outcome.ok (), [], ⟨[(natToDec 1, natToDec 5)]⟩⟩ :=
  C9_non_command_silent ⟨[(natToDec 1, natToDec 5)]⟩ ⟨true, true, true, true⟩ (some 1)
    ("hello".toList) (by decide)

/-- C10: for a valid notifchan command whose confirmation probe succeeds, a
message carrying no guild id (a direct message) makes the handler panic at
the commit step through the expect on the guild id, leaving the registry
untouched; with a guild id present the registry is committed through
set_notify_channel. -/
theorem C10_dm_commit_panics (db : Db) (env : MsgEnv) (content : List Char) (cid : Nat)
    (hp : parse_set_channel content = Outcome.ok (Except.ok (some cid)))
    (hs : env.sayOk = true) :
    message db env none content
        = ⟨Outcome.panic ("no guild id attached to message".toList),
            [Action.send cid confirmText], db⟩ ∧
    (∀ g : Nat, (message db env (some g) content).db
        = (set_notify_channel db env.deleteOk env.insertOk g cid).2) := by
  constructor
  · simp [message, hp, hs]
  · intro g
    simp only [message, hp, hs, if_true]
    rcases hset : set_notify_channel db env.deleteOk env.insertOk g cid with ⟨r, db1⟩
    cases r <;> simp [hset]

/-- C10 witness: the command naming channel 9 arriving as a direct message
panics; the same command for guild 3 commits the binding. -/
theorem C10_dm_commit_panics_witness :
    message ⟨[]⟩ ⟨true, true, true, true⟩ none ("!abs notifchan 9".toList)
        = ⟨Outcome.panic ("no guild id attached to message".toList),
            [Action.send 9 confirmText], ⟨[]⟩⟩ ∧
    (message ⟨[]⟩ ⟨true, true, true, true⟩ (some 3) ("!abs notifchan 9".toList)).db
        = (set_notify_channel ⟨[]⟩ true true 3 9).2 :=
  ⟨(C10_dm_commit_panics ⟨[]⟩ ⟨true, true, true, true⟩ ("!abs notifchan 9".toList) 9
      (by decide) rfl).1,
   (C10_dm_commit_panics ⟨[]⟩ ⟨true, true, true, true⟩ ("!abs notifchan 9".toList) 9
      (by decide) rfl).2 3⟩

end AbsenceBot
